import Mathlib

/-!
Shallow embedding of the Financial Simulation & Tax Engine of the
FinancialAnalysisTool repository, and proofs checking the natural-language
specification against it.

Python floats are modelled as exact rationals (ℚ); `float('inf')` results are
modelled with `WithTop ℚ`.  Each definition is translated directly from the
named source function.
-/

namespace FinTool

/-! ## Tax calculator (src/core/tax.py and src/utils/data_processor.py)

`get_tax_breakdown` appears twice in the source, once in `core/tax.py` reading
the constants from `config.TAX` and once inlined with the same constants in
`utils/data_processor.py`; both copies compute identically, so one embedding
covers both. -/

/-- `config.TAX['PERSONAL_ALLOWANCE']` -/
def PERSONAL_ALLOWANCE : ℚ := 12570

/-- `config.TAX['BASIC_RATE_LIMIT']` -/
def BASIC_RATE_LIMIT : ℚ := 50270

/-- `config.TAX['HIGHER_RATE_LIMIT']` -/
def HIGHER_RATE_LIMIT : ℚ := 125140

/-- `config.TAX['PERSONAL_ALLOWANCE_TAPER_THRESHOLD']` -/
def TAPER_THRESHOLD : ℚ := 100000

/-- `config.TAX['BASIC_RATE']` -/
def BASIC_RATE : ℚ := 20/100

/-- `config.TAX['HIGHER_RATE']` -/
def HIGHER_RATE : ℚ := 40/100

/-- `config.TAX['ADDITIONAL_RATE']` -/
def ADDITIONAL_RATE : ℚ := 45/100

/-- The `breakdown` dict returned by `get_tax_breakdown`. -/
structure TaxBreakdown where
  gross_income : ℚ
  tax_free_allowance : ℚ
  basic_rate_amount : ℚ
  higher_rate_amount : ℚ
  additional_rate_amount : ℚ
  total_tax : ℚ
  deriving DecidableEq, Repr

/-- The `actual_tax_free` value computed at the top of `get_tax_breakdown`
(`core/tax.py` lines 25-28): the personal allowance, tapered above the
threshold by half the excess, capped at the full allowance. -/
def actual_tax_free (gross_income : ℚ) : ℚ :=
  if gross_income > TAPER_THRESHOLD then
    PERSONAL_ALLOWANCE - min ((gross_income - TAPER_THRESHOLD) / 2) PERSONAL_ALLOWANCE
  else
    PERSONAL_ALLOWANCE

/-- `get_tax_breakdown` (`core/tax.py` lines 10-60; the copy in
`utils/data_processor.py` lines 330-372 is numeral-for-numeral identical).
The sequential mutation of `remaining_income` and of the `breakdown` dict is
rendered as a chain of `let`s.  Note the source subtracts
`max(0, actual_tax_free)` from the remaining income without flooring the
*result* at zero. -/
def get_tax_breakdown (gross_income : ℚ) : TaxBreakdown :=
  let tf := actual_tax_free gross_income
  let remaining0 := gross_income - max 0 tf
  let basic_rate_band := min (max 0 (BASIC_RATE_LIMIT - tf)) remaining0
  let remaining1 := remaining0 - basic_rate_band
  let higher_rate_band := min (max 0 (HIGHER_RATE_LIMIT - BASIC_RATE_LIMIT)) remaining1
  let remaining2 := remaining1 - higher_rate_band
  { gross_income := gross_income
    tax_free_allowance := tf
    basic_rate_amount := basic_rate_band
    higher_rate_amount := higher_rate_band
    additional_rate_amount := if remaining2 > 0 then remaining2 else 0
    total_tax := basic_rate_band * BASIC_RATE + higher_rate_band * HIGHER_RATE +
      (if remaining2 > 0 then remaining2 * ADDITIONAL_RATE else 0) }

/-! ### Basic facts about the tapered allowance -/

theorem actual_tax_free_nonneg (i : ℚ) : 0 ≤ actual_tax_free i := by
  unfold actual_tax_free
  split
  · have h : min ((i - TAPER_THRESHOLD) / 2) PERSONAL_ALLOWANCE ≤ PERSONAL_ALLOWANCE :=
      min_le_right _ _
    linarith
  · norm_num [PERSONAL_ALLOWANCE]

theorem actual_tax_free_le (i : ℚ) : actual_tax_free i ≤ PERSONAL_ALLOWANCE := by
  unfold actual_tax_free
  split
  · rename_i h
    have h0 : (0:ℚ) ≤ (i - TAPER_THRESHOLD) / 2 := by
      rw [gt_iff_lt] at h; linarith
    have h1 : (0:ℚ) ≤ min ((i - TAPER_THRESHOLD) / 2) PERSONAL_ALLOWANCE :=
      le_min h0 (by norm_num [PERSONAL_ALLOWANCE])
    linarith
  · exact le_rfl

theorem actual_tax_free_antitone {i j : ℚ} (hij : i ≤ j) :
    actual_tax_free j ≤ actual_tax_free i := by
  unfold actual_tax_free
  split <;> split
  · rename_i hj hi
    have : min ((i - TAPER_THRESHOLD) / 2) PERSONAL_ALLOWANCE ≤
        min ((j - TAPER_THRESHOLD) / 2) PERSONAL_ALLOWANCE :=
      min_le_min (by linarith) le_rfl
    linarith
  · rename_i hj hi
    have h0 : (0:ℚ) ≤ (j - TAPER_THRESHOLD) / 2 := by
      rw [gt_iff_lt] at hj; linarith
    have h1 : (0:ℚ) ≤ min ((j - TAPER_THRESHOLD) / 2) PERSONAL_ALLOWANCE :=
      le_min h0 (by norm_num [PERSONAL_ALLOWANCE])
    linarith
  · rename_i hj hi
    rw [gt_iff_lt, not_lt] at hj
    rw [gt_iff_lt] at hi
    linarith
  · exact le_rfl

theorem sub_min_right (x y : ℚ) : x - min y x = max (x - y) 0 := by
  rcases le_total y x with h | h
  · rw [min_eq_left h, max_eq_left (by linarith)]
  · rw [min_eq_right h, sub_self, max_eq_right (by linarith)]

theorem max_sub_shift (t c : ℚ) (hc : 0 ≤ c) : max (max t 0 - c) 0 = max (t - c) 0 := by
  rcases le_total t 0 with h | h
  · rw [max_eq_right h, zero_sub, max_eq_right (by linarith), max_eq_right (by linarith)]
  · rw [max_eq_left h]

theorem if_pos_mul_max (t r : ℚ) : (if max t 0 > 0 then max t 0 * r else 0) = r * max t 0 := by
  rcases le_or_lt t 0 with h | h
  · rw [max_eq_right h]
    simp
  · rw [max_eq_left (le_of_lt h)]
    rw [if_pos h]
    ring

/-- Closed form for the total tax computed by `get_tax_breakdown`: the
sequentially-computed bands collapse to min/max expressions of the income and
the tapered allowance. -/
theorem total_tax_closed (i : ℚ) :
    (get_tax_breakdown i).total_tax =
      BASIC_RATE * min (BASIC_RATE_LIMIT - actual_tax_free i) (i - actual_tax_free i) +
      HIGHER_RATE * min (HIGHER_RATE_LIMIT - BASIC_RATE_LIMIT) (max (i - BASIC_RATE_LIMIT) 0) +
      ADDITIONAL_RATE * max (i - HIGHER_RATE_LIMIT) 0 := by
  have ha0 : (0:ℚ) ≤ actual_tax_free i := actual_tax_free_nonneg i
  have haB : actual_tax_free i ≤ BASIC_RATE_LIMIT := by
    have := actual_tax_free_le i
    unfold PERSONAL_ALLOWANCE at this
    unfold BASIC_RATE_LIMIT
    linarith
  simp only [get_tax_breakdown]
  rw [max_eq_right ha0]
  rw [max_eq_right (by linarith : (0:ℚ) ≤ BASIC_RATE_LIMIT - actual_tax_free i)]
  rw [sub_min_right (i - actual_tax_free i) (BASIC_RATE_LIMIT - actual_tax_free i)]
  have e1 : i - actual_tax_free i - (BASIC_RATE_LIMIT - actual_tax_free i) =
      i - BASIC_RATE_LIMIT := by ring
  rw [e1]
  rw [max_eq_right (by norm_num [HIGHER_RATE_LIMIT, BASIC_RATE_LIMIT] :
    (0:ℚ) ≤ HIGHER_RATE_LIMIT - BASIC_RATE_LIMIT)]
  rw [sub_min_right (max (i - BASIC_RATE_LIMIT) 0) (HIGHER_RATE_LIMIT - BASIC_RATE_LIMIT)]
  rw [max_sub_shift (i - BASIC_RATE_LIMIT) (HIGHER_RATE_LIMIT - BASIC_RATE_LIMIT)
    (by norm_num [HIGHER_RATE_LIMIT, BASIC_RATE_LIMIT])]
  have e2 : i - BASIC_RATE_LIMIT - (HIGHER_RATE_LIMIT - BASIC_RATE_LIMIT) =
      i - HIGHER_RATE_LIMIT := by ring
  rw [e2]
  rw [if_pos_mul_max (i - HIGHER_RATE_LIMIT) ADDITIONAL_RATE]
  ring

/-- C5: `get_tax_breakdown`'s `total_tax` is monotone non-decreasing in the
gross income: for `0 ≤ i1 ≤ i2` the total tax at `i1` is at most the total tax
at `i2`, across all bands and the allowance-taper region. -/
theorem total_tax_monotone (i1 i2 : ℚ) (h0 : 0 ≤ i1) (h12 : i1 ≤ i2) :
    (get_tax_breakdown i1).total_tax ≤ (get_tax_breakdown i2).total_tax := by
  have ha := actual_tax_free_antitone h12
  rw [total_tax_closed i1, total_tax_closed i2]
  have t1 : min (BASIC_RATE_LIMIT - actual_tax_free i1) (i1 - actual_tax_free i1) ≤
      min (BASIC_RATE_LIMIT - actual_tax_free i2) (i2 - actual_tax_free i2) :=
    min_le_min (by linarith) (by linarith)
  have t2 : min (HIGHER_RATE_LIMIT - BASIC_RATE_LIMIT) (max (i1 - BASIC_RATE_LIMIT) 0) ≤
      min (HIGHER_RATE_LIMIT - BASIC_RATE_LIMIT) (max (i2 - BASIC_RATE_LIMIT) 0) :=
    min_le_min le_rfl (max_le_max (by linarith) le_rfl)
  have t3 : max (i1 - HIGHER_RATE_LIMIT) 0 ≤ max (i2 - HIGHER_RATE_LIMIT) 0 :=
    max_le_max (by linarith) le_rfl
  have r1 : (0:ℚ) ≤ BASIC_RATE := by norm_num [BASIC_RATE]
  have r2 : (0:ℚ) ≤ HIGHER_RATE := by norm_num [HIGHER_RATE]
  have r3 : (0:ℚ) ≤ ADDITIONAL_RATE := by norm_num [ADDITIONAL_RATE]
  have := add_le_add (add_le_add (mul_le_mul_of_nonneg_left t1 r1)
    (mul_le_mul_of_nonneg_left t2 r2)) (mul_le_mul_of_nonneg_left t3 r3)
  linarith

/-- C5 witness at incomes 0 and 12570. -/
theorem total_tax_monotone_witness :
    (get_tax_breakdown 0).total_tax ≤ (get_tax_breakdown 12570).total_tax :=
  total_tax_monotone 0 12570 (by norm_num) (by norm_num)

/-- C1: the code contradicts the claimed non-negativity.  `get_tax_breakdown`
subtracts the allowance from the remaining income without flooring the result
at zero (`remaining_income -= max(0, actual_tax_free)` floors the allowance,
not the difference), so at gross income 0 the basic-rate band and the total tax
come out negative. -/
theorem tax_breakdown_negative_at_zero :
    (get_tax_breakdown 0).basic_rate_amount = -12570 ∧
    (get_tax_breakdown 0).total_tax = -2514 ∧ (get_tax_breakdown 0).total_tax < 0 := by
  norm_num [get_tax_breakdown, actual_tax_free, PERSONAL_ALLOWANCE, BASIC_RATE_LIMIT,
    HIGHER_RATE_LIMIT, TAPER_THRESHOLD, BASIC_RATE, HIGHER_RATE, ADDITIONAL_RATE,
    min_def, max_def]

/-- C6: above the taper threshold of 100000 the returned `tax_free_allowance`
is `12570 - min((income - 100000) / 2, 12570)`, and it is never negative. -/
theorem tax_free_allowance_taper (i : ℚ) (hi : (100000:ℚ) < i) :
    (get_tax_breakdown i).tax_free_allowance = 12570 - min ((i - 100000) / 2) 12570 ∧
    0 ≤ (get_tax_breakdown i).tax_free_allowance := by
  have htf : (get_tax_breakdown i).tax_free_allowance = actual_tax_free i := by
    simp only [get_tax_breakdown]
  constructor
  · rw [htf]
    unfold actual_tax_free
    rw [if_pos (by unfold TAPER_THRESHOLD; exact hi)]
    norm_num [PERSONAL_ALLOWANCE, TAPER_THRESHOLD]
  · rw [htf]
    exact actual_tax_free_nonneg i

/-- C6 witness at income 125000 (reduction 12500, allowance 70). -/
theorem tax_free_allowance_taper_witness :
    (get_tax_breakdown 125000).tax_free_allowance =
      12570 - min ((125000 - 100000) / 2) 12570 ∧
    0 ≤ (get_tax_breakdown 125000).tax_free_allowance :=
  tax_free_allowance_taper 125000 (by norm_num)

/-! ## Depletion simulator (src/utils/data_processor.py `calculate_depletion_years`,
duplicated in src/services/data_service.py with `max_years` read from
`config.FINANCE['MAX_DEPLETION_YEARS'] = 100`; the two copies compute
identically). -/

/-- One month of simulation: apply monthly growth, then subtract the
withdrawal (`current_capital *= (1 + monthly_growth_rate)`;
`current_capital -= monthly_withdrawal`). -/
def stepMonth (mgr mw c : ℚ) : ℚ := c * (1 + mgr) - mw

/-- The inner `for _ in range(12)` loop of `calculate_depletion_years`, with
its early `break` the first month the balance is `<= 0`. -/
def simMonths (mgr mw : ℚ) : Nat → ℚ → ℚ
  | 0, c => c
  | n + 1, c =>
    let c2 := stepMonth mgr mw c
    if c2 ≤ 0 then c2 else simMonths mgr mw n c2

/-- `config.FINANCE['MAX_DEPLETION_YEARS']` (hardcoded as `max_years = 100` in
the `utils/data_processor.py` copy). -/
def MAX_DEPLETION_YEARS : Nat := 100

/-- The outer `while current_capital > 0 and years < max_years` loop; `fuel`
stands for `max_years - years`, so the `years < max_years` conjunct of the
loop condition is `fuel > 0`. -/
def depletionLoop (mgr mw : ℚ) : Nat → ℚ → Nat → Nat
  | 0, _, years => years
  | fuel + 1, c, years =>
    if 0 < c then depletionLoop mgr mw fuel (simMonths mgr mw 12 c) (years + 1) else years

/-- `calculate_depletion_years(capital, monthly_withdrawal, growth_rate)`:
infinite when nothing is withdrawn; a closed-form division when the growth
rate is zero; otherwise the bounded year-block simulation, returning the
whole-year count, or infinity once the 100-year horizon is reached. -/
def calculate_depletion_years (capital monthly_withdrawal growth_rate : ℚ) : WithTop ℚ :=
  if monthly_withdrawal ≤ 0 then ⊤
  else if growth_rate = 0 then
    let annual_withdrawal := monthly_withdrawal * 12
    if annual_withdrawal > 0 then ((capital / annual_withdrawal : ℚ) : WithTop ℚ) else ⊤
  else
    let years := depletionLoop (growth_rate / 12) monthly_withdrawal
      MAX_DEPLETION_YEARS capital 0
    if years < MAX_DEPLETION_YEARS then (((years : ℚ)) : WithTop ℚ) else ⊤

/-- The zero-growth branch of `calculate_depletion_years` is the closed-form
division. -/
theorem depletion_years_zero_growth (c mw : ℚ) (hmw : 0 < mw) :
    calculate_depletion_years c mw 0 = ((c / (mw * 12) : ℚ) : WithTop ℚ) := by
  unfold calculate_depletion_years
  rw [if_neg (not_le.mpr hmw), if_pos rfl, if_pos (by positivity)]

/-- C7: the division-by-zero guards of `calculate_depletion_years`: a
non-positive monthly withdrawal yields infinity; with a positive withdrawal
and zero growth the closed form `capital / (monthly_withdrawal * 12)` is
returned (so 120000 at 1000/month gives exactly 10 years); zero capital with
a positive withdrawal gives 0 years for every growth rate. -/
theorem depletion_years_guards :
    (∀ c mw g : ℚ, mw ≤ 0 → calculate_depletion_years c mw g = ⊤) ∧
    (∀ c mw : ℚ, 0 < mw →
      calculate_depletion_years c mw 0 = ((c / (mw * 12) : ℚ) : WithTop ℚ)) ∧
    calculate_depletion_years 120000 1000 0 = ((10 : ℚ) : WithTop ℚ) ∧
    (∀ mw g : ℚ, 0 < mw → calculate_depletion_years 0 mw g = ((0 : ℚ) : WithTop ℚ)) := by
  have main2 : ∀ c mw : ℚ, 0 < mw →
      calculate_depletion_years c mw 0 = ((c / (mw * 12) : ℚ) : WithTop ℚ) :=
    depletion_years_zero_growth
  refine ⟨?_, main2, ?_, ?_⟩
  · intro c mw g hmw
    unfold calculate_depletion_years
    rw [if_pos hmw]
  · rw [main2 120000 1000 (by norm_num)]
    norm_num
  · intro mw g hmw
    by_cases hg : g = 0
    · subst hg
      rw [main2 0 mw hmw]
      norm_num
    · unfold calculate_depletion_years
      rw [if_neg (not_le.mpr hmw), if_neg hg]
      have hloop : depletionLoop (g / 12) mw MAX_DEPLETION_YEARS 0 0 = 0 := by
        unfold MAX_DEPLETION_YEARS
        unfold depletionLoop
        rw [if_neg (by norm_num)]
      rw [hloop]
      rw [if_pos (by norm_num [MAX_DEPLETION_YEARS])]
      norm_num

/-- C7 witness: instantiates the guards at concrete inputs
(withdrawal 0, the zero-growth closed form at 7/(2·12), and zero capital). -/
theorem depletion_years_guards_witness :
    calculate_depletion_years 5 0 1 = ⊤ ∧
    calculate_depletion_years 7 2 0 = ((7 / (2 * 12) : ℚ) : WithTop ℚ) ∧
    calculate_depletion_years 0 3 (1/2) = ((0 : ℚ) : WithTop ℚ) :=
  ⟨depletion_years_guards.1 5 0 1 (by norm_num),
   depletion_years_guards.2.1 7 2 (by norm_num),
   depletion_years_guards.2.2.2 3 (1/2) (by norm_num)⟩

theorem simMonths_succ (mgr mw c : ℚ) (n : Nat) :
    simMonths mgr mw (n+1) c =
      (if stepMonth mgr mw c ≤ 0 then stepMonth mgr mw c
       else simMonths mgr mw n (stepMonth mgr mw c)) := rfl

theorem depletionLoop_succ (mgr mw c : ℚ) (f y : Nat) :
    depletionLoop mgr mw (f+1) c y =
      (if 0 < c then depletionLoop mgr mw f (simMonths mgr mw 12 c) (y+1) else y) := rfl

/-- C2 counterexample: capital 500 withdrawn at 1000/month with 12% annual
growth is depleted in the first simulated month, yet
`calculate_depletion_years` reports a whole year, not the fractional
1/12 year the claim describes. -/
theorem depletion_years_fraction_counterexample :
    calculate_depletion_years 500 1000 (12/100) = ((1 : ℚ) : WithTop ℚ) ∧
    ((1 : ℚ) : WithTop ℚ) ≠ ((1/12 : ℚ) : WithTop ℚ) := by
  constructor
  · unfold calculate_depletion_years
    rw [if_neg (by norm_num), if_neg (by norm_num)]
    have hsim : simMonths ((12:ℚ)/100/12) 1000 12 500 = -495 := by
      rw [show (12:Nat) = 11+1 from rfl, simMonths_succ]
      rw [if_pos (by norm_num [stepMonth])]
      norm_num [stepMonth]
    have hloop : depletionLoop ((12:ℚ)/100/12) 1000 MAX_DEPLETION_YEARS 500 0 = 1 := by
      rw [show MAX_DEPLETION_YEARS = 99+1 from rfl, depletionLoop_succ, if_pos (by norm_num),
        hsim, show (99:Nat) = 98+1 from rfl, depletionLoop_succ, if_neg (by norm_num)]
    rw [hloop]
    rw [if_pos (by norm_num [MAX_DEPLETION_YEARS])]
    norm_num
  · rw [ne_eq, WithTop.coe_eq_coe]
    norm_num

/-- When the first month's growth at least covers the withdrawal at the
starting balance, the balance never drops below the starting balance during
a simulated year. -/
theorem simMonths_ge (mgr mw c0 : ℚ) (hc0 : 0 < c0) (hmgr : 0 < mgr)
    (hw : mw ≤ c0 * mgr) :
    ∀ (n : Nat) (c : ℚ), c0 ≤ c → c0 ≤ simMonths mgr mw n c := by
  intro n
  induction n with
  | zero => intro c h; exact h
  | succ n ih =>
    intro c h
    have hmul : c0 * mgr ≤ c * mgr := mul_le_mul_of_nonneg_right h (le_of_lt hmgr)
    have hstep : c0 ≤ stepMonth mgr mw c := by
      have he : c * (1 + mgr) = c + c * mgr := by ring
      unfold stepMonth
      rw [he]
      linarith
    rw [simMonths_succ]
    split
    · exact hstep
    · exact ih _ hstep

/-- Under the same covering-growth condition the outer loop never observes a
depleted balance, so it burns all of its fuel. -/
theorem depletionLoop_full (mgr mw c0 : ℚ) (hc0 : 0 < c0) (hmgr : 0 < mgr)
    (hw : mw ≤ c0 * mgr) :
    ∀ (fuel : Nat) (c : ℚ) (years : Nat), c0 ≤ c →
      depletionLoop mgr mw fuel c years = years + fuel := by
  intro fuel
  induction fuel with
  | zero => intro c years _; rfl
  | succ n ih =>
    intro c years h
    rw [depletionLoop_succ, if_pos (lt_of_lt_of_le hc0 h)]
    rw [ih _ _ (simMonths_ge mgr mw c0 hc0 hmgr hw 12 c h)]
    omega

/-- C2 amended: for a positive withdrawal and nonzero growth rate,
`calculate_depletion_years` runs the month-by-month simulation in year blocks
(multiply by `1 + growth/12`, subtract the withdrawal, break the first month
the balance is ≤ 0) but reports only a whole-year count — any finite result is
an integer below 100, a depletion during a partial year is rounded up to the
enclosing whole year (500 at 1000/month, 12% growth, reports 1 year), and when
monthly growth on the starting balance covers the withdrawal the balance never
depletes and the 100-year horizon yields infinity. -/
theorem depletion_years_whole_years :
    (∀ c mw g : ℚ, 0 < mw → g ≠ 0 →
      (∃ n : Nat, n < 100 ∧ calculate_depletion_years c mw g = ((n : ℚ) : WithTop ℚ)) ∨
      calculate_depletion_years c mw g = ⊤) ∧
    calculate_depletion_years 500 1000 (12/100) = ((1 : ℚ) : WithTop ℚ) ∧
    (∀ c mw g : ℚ, 0 < c → 0 < mw → 0 < g → mw ≤ c * (g / 12) →
      calculate_depletion_years c mw g = ⊤) := by
  refine ⟨?_, depletion_years_fraction_counterexample.1, ?_⟩
  · intro c mw g hmw hg
    unfold calculate_depletion_years
    rw [if_neg (not_le.mpr hmw), if_neg hg]
    by_cases hy : depletionLoop (g / 12) mw MAX_DEPLETION_YEARS c 0 < MAX_DEPLETION_YEARS
    · left
      refine ⟨depletionLoop (g / 12) mw MAX_DEPLETION_YEARS c 0, ?_, ?_⟩
      · unfold MAX_DEPLETION_YEARS at hy
        exact hy
      · rw [if_pos hy]
    · right
      rw [if_neg hy]
  · intro c mw g hc hmw hg hw
    unfold calculate_depletion_years
    rw [if_neg (not_le.mpr hmw), if_neg (ne_of_gt hg)]
    rw [depletionLoop_full (g / 12) mw c hc (by positivity) hw MAX_DEPLETION_YEARS c 0 le_rfl]
    rw [if_neg (by norm_num [MAX_DEPLETION_YEARS])]

/-- C2 witness: growth 1200% annual on capital 1200 covers a withdrawal of 1,
so the simulation reaches the 100-year horizon and reports infinity. -/
theorem depletion_years_whole_years_witness :
    calculate_depletion_years 1200 1 12 = ⊤ :=
  depletion_years_whole_years.2.2 1200 1 12 (by norm_num) (by norm_num) (by norm_num)
    (by norm_num)

/-! ## Frequency normalizer (src/utils/data_processor.py `calculate_monthly_value`,
duplicated in src/services/data_service.py, and the enum-based variant
`Frequency.from_string` / `Frequency.get_monthly_factor` in src/core/models.py). -/

/-- ASCII lower-casing of one character (`str.lower()` applied to the
frequency label). -/
def lowerChar (c : Char) : Char :=
  if 65 ≤ c.toNat ∧ c.toNat ≤ 90 then Char.ofNat (c.toNat + 32) else c

/-- `needle` occurs at the start of `hay`. -/
def listStarts : List Char → List Char → Bool
  | [], _ => true
  | _ :: _, [] => false
  | a :: as, b :: bs => a == b && listStarts as bs

/-- Python's substring test `needle in hay`. -/
def listHas (needle : List Char) : List Char → Bool
  | [] => listStarts needle []
  | b :: bs => listStarts needle (b :: bs) || listHas needle bs

/-- Substring test with a string-literal needle. -/
def strHas (needle : String) (hay : List Char) : Bool := listHas needle.data hay

/-- `frequency.lower()` as a character list. -/
def lowerStr (s : String) : List Char := s.data.map lowerChar

/-- `calculate_monthly_value` (`utils/data_processor.py` lines 10-36; the
`DataService` copy is identical): case-insensitive substring dispatch on the
frequency label.  The row/currency plumbing around `period_value` is applied
by the caller; the dispatch itself takes the numeric period value and the
label.  Note there is no branch for `"quarter"`. -/
def calculate_monthly_value (period_value : ℚ) (frequency : String) : ℚ :=
  let freq_lower := lowerStr frequency
  if strHas "week" freq_lower then period_value * 52 / 12
  else if strHas "month" freq_lower then period_value
  else if strHas "year" freq_lower || strHas "annual" freq_lower then period_value / 12
  else if strHas "invest" freq_lower then 0
  else period_value

/-- The `Frequency` enum of src/core/models.py. -/
inductive Frequency
  | weekly
  | monthly
  | quarterly
  | annually
  | investment
  deriving DecidableEq

/-- `Frequency.from_string` (core/models.py lines 26-41): the same substring
dispatch, but with a `"quarter"` branch. -/
def Frequency.from_string (s : String) : Frequency :=
  let value := lowerStr s
  if strHas "week" value then .weekly
  else if strHas "month" value then .monthly
  else if strHas "quarter" value then .quarterly
  else if strHas "year" value || strHas "annual" value then .annually
  else if strHas "invest" value then .investment
  else .monthly

/-- `Frequency.get_monthly_factor` (core/models.py lines 43-55). -/
def Frequency.get_monthly_factor : Frequency → ℚ
  | .weekly => 52 / 12
  | .monthly => 1
  | .quarterly => 1 / 3
  | .annually => 1 / 12
  | .investment => 0

/-- `FinancialItem.monthly_value` (core/models.py lines 100-103):
`period_value * frequency.get_monthly_factor()` after
`Frequency.from_string`. -/
def item_monthly_value (period_value : ℚ) (frequency : String) : ℚ :=
  period_value * (Frequency.from_string frequency).get_monthly_factor

/-- C3 counterexample: `calculate_monthly_value` leaves a `"Quarterly"` amount
unchanged (the fall-through monthly behaviour) instead of dividing by 3. -/
theorem monthly_value_quarterly_counterexample :
    calculate_monthly_value 300 "Quarterly" = 300 ∧ (300 : ℚ) ≠ 300 / 3 := by
  constructor
  · unfold calculate_monthly_value
    rw [if_neg (by decide), if_neg (by decide), if_neg (by decide), if_neg (by decide)]
  · norm_num

/-- C3 amended: `calculate_monthly_value` dispatches case-insensitively on
substrings — `"week"` gives ×52/12, otherwise `"month"` passes through,
otherwise `"year"`/`"annual"` gives ÷12, otherwise `"invest"` gives 0, and any
other label (so in particular a `"quarter"` label, for which there is no
branch) passes through unchanged; the ÷3 quarterly conversion exists only on
the `Frequency` enum path of core/models.py. -/
theorem monthly_value_branches :
    (∀ (v : ℚ) (s : String), strHas "week" (lowerStr s) = true →
      calculate_monthly_value v s = v * 52 / 12) ∧
    (∀ (v : ℚ) (s : String), strHas "week" (lowerStr s) = false →
      strHas "month" (lowerStr s) = true → calculate_monthly_value v s = v) ∧
    (∀ (v : ℚ) (s : String), strHas "week" (lowerStr s) = false →
      strHas "month" (lowerStr s) = false →
      (strHas "year" (lowerStr s) || strHas "annual" (lowerStr s)) = true →
      calculate_monthly_value v s = v / 12) ∧
    (∀ (v : ℚ) (s : String), strHas "week" (lowerStr s) = false →
      strHas "month" (lowerStr s) = false → strHas "year" (lowerStr s) = false →
      strHas "annual" (lowerStr s) = false → strHas "invest" (lowerStr s) = true →
      calculate_monthly_value v s = 0) ∧
    (∀ (v : ℚ) (s : String), strHas "week" (lowerStr s) = false →
      strHas "month" (lowerStr s) = false → strHas "year" (lowerStr s) = false →
      strHas "annual" (lowerStr s) = false → strHas "invest" (lowerStr s) = false →
      calculate_monthly_value v s = v) ∧
    (∀ v : ℚ, item_monthly_value v "Quarterly" = v / 3) := by
  refine ⟨?_, ?_, ?_, ?_, ?_, ?_⟩
  · intro v s hw
    unfold calculate_monthly_value
    rw [if_pos hw]
  · intro v s hw hm
    unfold calculate_monthly_value
    rw [if_neg (by rw [hw]; exact Bool.false_ne_true), if_pos hm]
  · intro v s hw hm hy
    unfold calculate_monthly_value
    rw [if_neg (by rw [hw]; exact Bool.false_ne_true),
      if_neg (by rw [hm]; exact Bool.false_ne_true), if_pos hy]
  · intro v s hw hm hy ha hi
    unfold calculate_monthly_value
    rw [if_neg (by rw [hw]; exact Bool.false_ne_true),
      if_neg (by rw [hm]; exact Bool.false_ne_true),
      if_neg (by rw [hy, ha]; exact Bool.false_ne_true), if_pos hi]
  · intro v s hw hm hy ha hi
    unfold calculate_monthly_value
    rw [if_neg (by rw [hw]; exact Bool.false_ne_true),
      if_neg (by rw [hm]; exact Bool.false_ne_true),
      if_neg (by rw [hy, ha]; exact Bool.false_ne_true),
      if_neg (by rw [hi]; exact Bool.false_ne_true)]
  · intro v
    unfold item_monthly_value
    rw [show Frequency.from_string "Quarterly" = .quarterly from by decide]
    unfold Frequency.get_monthly_factor
    ring

/-- C3 witness: one concrete label per branch, plus the enum path on
`"Quarterly"`. -/
theorem monthly_value_branches_witness :
    calculate_monthly_value 6 "Weekly" = 6 * 52 / 12 ∧
    calculate_monthly_value 6 "Monthly" = 6 ∧
    calculate_monthly_value 6 "Annually" = 6 / 12 ∧
    calculate_monthly_value 6 "Investment" = 0 ∧
    calculate_monthly_value 6 "Quarterly" = 6 ∧
    item_monthly_value 6 "Quarterly" = 6 / 3 :=
  ⟨monthly_value_branches.1 6 "Weekly" (by decide),
   monthly_value_branches.2.1 6 "Monthly" (by decide) (by decide),
   monthly_value_branches.2.2.1 6 "Annually" (by decide) (by decide) (by decide),
   monthly_value_branches.2.2.2.1 6 "Investment" (by decide) (by decide) (by decide)
     (by decide) (by decide),
   monthly_value_branches.2.2.2.2.1 6 "Quarterly" (by decide) (by decide) (by decide)
     (by decide) (by decide),
   monthly_value_branches.2.2.2.2.2 6⟩

/-! ## Ingestion parsing (src/services/data_service.py `parse_growth_rate` and
`convert_currency_to_float`).

Python's `float()` builtin is modelled on its decimal fragment (optional
sign, digits, at most one decimal point, at least one digit); the exponent /
`inf` / `nan` / whitespace forms do not occur in the repository's data paths.
An unparsable string is `none` (Python raises `ValueError`, which both
callers catch). -/

/-- `str.replace(needle, '')`: remove every (left-to-right, non-overlapping)
occurrence of `needle`; the fuel is the length of the haystack, which never
increases. -/
def removeSubGo (needle : List Char) : Nat → List Char → List Char
  | 0, _ => []
  | _ + 1, [] => []
  | fuel + 1, c :: cs =>
    if !needle.isEmpty && listStarts needle (c :: cs) then
      removeSubGo needle fuel (cs.drop (needle.length - 1))
    else c :: removeSubGo needle fuel cs

/-- `str.replace(needle, '')`. -/
def removeSub (needle hay : List Char) : List Char := removeSubGo needle hay.length hay

/-- `str.strip(ch)`: remove the character from both ends. -/
def stripCharEnds (ch : Char) (cs : List Char) : List Char :=
  ((cs.dropWhile (· == ch)).reverse.dropWhile (· == ch)).reverse

/-- ASCII digit test. -/
def isDigitChar (c : Char) : Bool := 48 ≤ c.toNat && c.toNat ≤ 57

/-- Every character is a digit. -/
def allDigits (l : List Char) : Bool := l.all isDigitChar

/-- The natural number denoted by a digit string. -/
def natOfDigits (l : List Char) : Nat := l.foldl (fun n c => n * 10 + (c.toNat - 48)) 0

/-- Split at the first `'.'`, if any. -/
def splitAtDot : List Char → List Char × Option (List Char)
  | [] => ([], none)
  | c :: cs =>
    if c == '.' then ([], some cs)
    else
      let r := splitAtDot cs
      (c :: r.1, r.2)

/-- Strip an optional leading sign, recording whether it was `'-'`. -/
def splitSign (cs : List Char) : Bool × List Char :=
  match cs with
  | [] => (false, [])
  | c :: rest =>
    if c == '-' then (true, rest) else if c == '+' then (false, rest) else (false, cs)

/-- Validate and decompose a decimal literal into sign, integer digits and
fraction digits. -/
def pyFloatParts (cs : List Char) : Option (Bool × List Char × List Char) :=
  let sb := splitSign cs
  let p := splitAtDot sb.2
  match p.2 with
  | none => if !p.1.isEmpty && allDigits p.1 then some (sb.1, p.1, []) else none
  | some frac =>
    if (!p.1.isEmpty || !frac.isEmpty) && allDigits p.1 && allDigits frac &&
        !(frac.contains '.') then some (sb.1, p.1, frac) else none

/-- The rational denoted by a decomposed decimal literal. -/
def partsToRat (parts : Bool × List Char × List Char) : ℚ :=
  let v : ℚ := (natOfDigits parts.2.1 : ℚ) + (natOfDigits parts.2.2 : ℚ) / 10 ^ parts.2.2.length
  if parts.1 then -v else v

/-- Python `float(s)` on the decimal fragment. -/
def pyFloat (cs : List Char) : Option ℚ := (pyFloatParts cs).map partsToRat

/-- A Python value that is either a string or a number, as received by the
ingestion helpers. -/
inductive StrOrNum
  | str (s : String)
  | num (q : ℚ)

/-- `DataService.parse_growth_rate` (`services/data_service.py` lines
193-201): every string is stripped of `%` at the ends and of commas, parsed,
and divided by 100; a parse failure yields 0.0; a number passes through. -/
def parse_growth_rate : StrOrNum → ℚ
  | .str s =>
    match pyFloat (removeSub (",".data) (stripCharEnds '%' s.data)) with
    | some q => q / 100
    | none => 0
  | .num q => q

/-- `DataService.convert_currency_to_float` (`services/data_service.py` lines
86-94): strings have the (mojibake) currency marker `"Â£"` and commas removed
and are parsed, with 0.0 on failure; a number passes through. -/
def convert_currency_to_float : StrOrNum → ℚ
  | .str s =>
    match pyFloat (removeSub (",".data) (removeSub ("Â£".data) s.data)) with
    | some q => q
    | none => 0
  | .num q => q

theorem pyFloat_dec_0_04 : pyFloat ("0.04".data) = some (1/25) := by
  rw [pyFloat, show pyFloatParts ("0.04".data) = some (false, ['0'], ['0', '4']) from by decide]
  rw [Option.map_some']
  rw [show partsToRat (false, ['0'], ['0', '4']) =
    ((natOfDigits ['0'] : ℚ) + (natOfDigits ['0', '4'] : ℚ) / 10 ^ 2) from rfl]
  rw [show natOfDigits ['0'] = 0 from by decide, show natOfDigits ['0', '4'] = 4 from by decide]
  norm_num

/-- C9 counterexample: the plain decimal string `"0.04"` is also divided by
100, parsing to 0.0004 rather than the claimed 0.04. -/
theorem parse_growth_rate_string_counterexample :
    parse_growth_rate (.str "0.04") = 1/2500 ∧ ((1/2500 : ℚ) ≠ 4/100) := by
  constructor
  · show ((match pyFloat (removeSub (",".data) (stripCharEnds '%' ("0.04".data))) with
      | some q => q / 100
      | none => 0 : ℚ)) = 1/2500
    rw [show removeSub (",".data) (stripCharEnds '%' ("0.04".data)) = "0.04".data from by decide]
    rw [pyFloat_dec_0_04]
    norm_num
  · norm_num

/-- C9 amended: `parse_growth_rate` maps the percentage string `"4.5%"` to
0.045 and passes the number 0.04 through unchanged, but a plain decimal given
as a *string* is likewise divided by 100 (`"0.04"` parses to 0.0004, not
0.04). -/
theorem parse_growth_rate_cases :
    parse_growth_rate (.str "4.5%") = 45/1000 ∧
    parse_growth_rate (.num (4/100)) = 4/100 ∧
    parse_growth_rate (.str "0.04") = 1/2500 := by
  refine ⟨?_, rfl, parse_growth_rate_string_counterexample.1⟩
  show ((match pyFloat (removeSub (",".data) (stripCharEnds '%' ("4.5%".data))) with
    | some q => q / 100
    | none => 0 : ℚ)) = 45/1000
  rw [show removeSub (",".data) (stripCharEnds '%' ("4.5%".data)) = "4.5".data from by decide]
  rw [pyFloat, show pyFloatParts ("4.5".data) = some (false, ['4'], ['5']) from by decide]
  rw [Option.map_some']
  rw [show partsToRat (false, ['4'], ['5']) =
    ((natOfDigits ['4'] : ℚ) + (natOfDigits ['5'] : ℚ) / 10 ^ 1) from rfl]
  rw [show natOfDigits ['4'] = 4 from by decide, show natOfDigits ['5'] = 5 from by decide]
  norm_num

/-- C10: `convert_currency_to_float` silently returns 0.0 for every string
whose cleaned form does not parse as a number (in particular `"abc"`), and
passes any non-string value through as its numeric value. -/
theorem convert_currency_to_float_malformed :
    convert_currency_to_float (.str "abc") = 0 ∧
    (∀ s : String,
      pyFloat (removeSub (",".data) (removeSub ("Â£".data) s.data)) = none →
      convert_currency_to_float (.str s) = 0) ∧
    (∀ q : ℚ, convert_currency_to_float (.num q) = q) := by
  have habc : pyFloat (removeSub (",".data) (removeSub ("Â£".data) ("abc".data))) = none := by
    rw [show removeSub (",".data) (removeSub ("Â£".data) ("abc".data)) = "abc".data from by
      decide]
    rw [pyFloat, show pyFloatParts ("abc".data) = none from by decide]
    rfl
  have hgen : ∀ s : String,
      pyFloat (removeSub (",".data) (removeSub ("Â£".data) s.data)) = none →
      convert_currency_to_float (.str s) = 0 := by
    intro s h
    show ((match pyFloat (removeSub (",".data) (removeSub ("Â£".data) s.data)) with
      | some q => q
      | none => 0 : ℚ)) = 0
    rw [h]
  exact ⟨hgen "abc" habc, hgen, fun q => rfl⟩

/-- C10 witness: the general malformed-string conjunct applied at `"abc"`. -/
theorem convert_currency_to_float_malformed_witness :
    convert_currency_to_float (.str "abc") = 0 :=
  convert_currency_to_float_malformed.2.1 "abc" (by
    rw [show removeSub (",".data) (removeSub ("Â£".data) ("abc".data)) = "abc".data from by
      decide]
    rw [pyFloat, show pyFloatParts ("abc".data) = none from by decide]
    rfl)

/-! ## Projection engine (src/services/finance_service.py `calculate_projections`
(month-stepped; the `utils/data_processor.py` copy is identical) and
src/services/data_service.py `calculate_detailed_asset_projections`
(year-stepped; the `utils/data_processor.py` copy is identical)).  The per-asset
loops are embedded; the surrounding dict assembly and the `Total Assets`
elementwise sum add nothing to the recorded per-asset balances. -/

/-- The month loop of `calculate_projections`: the running value is updated
*unfloored* (`current_value *= (1 + monthly_growth_rate)`;
`current_value -= monthly_withdrawal`) while each recorded value is
`max(0, current_value)`. -/
def projMonthlyGo (mgr mw : ℚ) : ℚ → Nat → List ℚ
  | _, 0 => []
  | cur, n + 1 =>
    let c2 := cur * (1 + mgr) - mw
    max 0 c2 :: projMonthlyGo mgr mw c2 n

/-- One asset's month-stepped series from `calculate_projections`: the initial
capital (recorded unfloored) followed by `months` floored recordings. -/
def calculate_projections_series (capital mw g : ℚ) (months : Nat) : List ℚ :=
  capital :: projMonthlyGo (g / 12) mw capital months

/-- One month of the year-stepped projection's withdrawal branch, floored at
zero (`current_capital = max(0, current_capital)`). -/
def stepMonthFloor (mgr mw c : ℚ) : ℚ := max 0 (c * (1 + mgr) - mw)

/-- The `for _ in range(12)` loop of the withdrawal branch (no break). -/
def simMonthsFloor (mgr mw : ℚ) : Nat → ℚ → ℚ
  | 0, c => c
  | n + 1, c => simMonthsFloor mgr mw n (stepMonthFloor mgr mw c)

/-- The year loop of `calculate_detailed_asset_projections`: with a positive
monthly withdrawal, twelve floored months; otherwise direct compounding
`capital * (1 + growth_rate)` with no clamp. -/
def projYearlyGo (g mw : ℚ) : ℚ → Nat → List ℚ
  | _, 0 => []
  | cap, n + 1 =>
    let cap2 := if 0 < mw then simMonthsFloor (g / 12) mw 12 cap else cap * (1 + g)
    cap2 :: projYearlyGo g mw cap2 n

/-- One asset's year-stepped series from
`calculate_detailed_asset_projections`: the initial capital followed by
`years` yearly recordings. -/
def calculate_detailed_projection_series (capital mw g : ℚ) (years : Nat) : List ℚ :=
  capital :: projYearlyGo g mw capital years

theorem projYearlyGo_succ (g mw cap : ℚ) (n : Nat) :
    projYearlyGo g mw cap (n + 1) =
      (let cap2 := if 0 < mw then simMonthsFloor (g / 12) mw 12 cap else cap * (1 + g)
       cap2 :: projYearlyGo g mw cap2 n) := rfl

/-- C8 counterexample: a no-withdrawal asset of capital 100 with growth rate
−200% records the negative balance −100 at year 1 of the year-stepped series
(the no-withdrawal branch compounds with no clamp). -/
theorem projection_negative_counterexample :
    calculate_detailed_projection_series 100 0 (-2) 1 = [100, -100] ∧
    ¬ (∀ x ∈ calculate_detailed_projection_series 100 0 (-2) 1, (0:ℚ) ≤ x) := by
  have hlist : calculate_detailed_projection_series 100 0 (-2) 1 = [100, -100] := by
    unfold calculate_detailed_projection_series
    rw [projYearlyGo_succ]
    rw [if_neg (by norm_num)]
    norm_num
    rfl
  refine ⟨hlist, fun h => ?_⟩
  have := h (-100) (by rw [hlist]; simp)
  norm_num at this

theorem projMonthlyGo_nonneg (mgr mw : ℚ) :
    ∀ (n : Nat) (cur : ℚ), ∀ x ∈ projMonthlyGo mgr mw cur n, 0 ≤ x := by
  intro n
  induction n with
  | zero => intro cur x hx; simp [projMonthlyGo] at hx
  | succ n ih =>
    intro cur x hx
    simp only [projMonthlyGo, List.mem_cons] at hx
    rcases hx with h | h
    · rw [h]; exact le_max_left 0 _
    · exact ih _ x h

theorem simMonthsFloor_nonneg (mgr mw : ℚ) :
    ∀ (n : Nat) (c : ℚ), 0 ≤ c → 0 ≤ simMonthsFloor mgr mw n c := by
  intro n
  induction n with
  | zero => intro c hc; exact hc
  | succ n ih => intro c _; exact ih _ (le_max_left 0 _)

theorem projYearlyGo_nonneg (g mw : ℚ) (hmw : 0 < mw) :
    ∀ (n : Nat) (cap : ℚ), 0 ≤ cap → ∀ x ∈ projYearlyGo g mw cap n, 0 ≤ x := by
  intro n
  induction n with
  | zero => intro cap _ x hx; simp [projYearlyGo] at hx
  | succ n ih =>
    intro cap hcap x hx
    rw [projYearlyGo_succ] at hx
    simp only [if_pos hmw, List.mem_cons] at hx
    have hc2 : 0 ≤ simMonthsFloor (g / 12) mw 12 cap := simMonthsFloor_nonneg _ _ _ _ hcap
    rcases hx with h | h
    · rw [h]; exact hc2
    · exact ih _ hc2 x h

/-- C8 amended: recorded balances are non-negative for every month-stepped
series with non-negative starting capital (each recording is floored at zero)
and for every year-stepped series of a withdrawal-bearing asset (each month is
floored during simulation); but in the year-stepped series an asset with no
withdrawal is compounded directly with no clamp, so a growth rate whose factor
`1 + g` is negative records negative balances. -/
theorem projection_series_nonneg :
    (∀ (capital mw g : ℚ) (months : Nat), 0 ≤ capital →
      ∀ x ∈ calculate_projections_series capital mw g months, 0 ≤ x) ∧
    (∀ (capital mw g : ℚ) (years : Nat), 0 ≤ capital → 0 < mw →
      ∀ x ∈ calculate_detailed_projection_series capital mw g years, 0 ≤ x) := by
  constructor
  · intro capital mw g months hcap x hx
    simp only [calculate_projections_series, List.mem_cons] at hx
    rcases hx with h | h
    · rw [h]; exact hcap
    · exact projMonthlyGo_nonneg _ _ _ _ x h
  · intro capital mw g years hcap hmw x hx
    simp only [calculate_detailed_projection_series, List.mem_cons] at hx
    rcases hx with h | h
    · rw [h]; exact hcap
    · exact projYearlyGo_nonneg _ _ hmw _ _ hcap x h

/-- C8 witness: month 1 of the month-stepped series for capital 100,
withdrawal 5, zero growth is non-negative (it is 95). -/
theorem projection_series_nonneg_witness :
    0 ≤ (calculate_projections_series 100 5 0 1).getD 1 0 :=
  projection_series_nonneg.1 100 5 0 1 (by norm_num)
    ((calculate_projections_series 100 5 0 1).getD 1 0)
    (by
      rw [show calculate_projections_series 100 5 0 1 = [100, 95] from by
        unfold calculate_projections_series projMonthlyGo
        norm_num
        rfl]
      simp)

/-! ## Sustainability analyzer (src/services/finance_service.py
`FinanceService.calculate_sustainability`).

One asset row of `assets_df`, keyed by `id` (standing for the
`Description (Owner)` pair), carrying the precomputed `Monthly_Value` and
`Depletion_Years` columns.  The walk over withdrawal-bearing assets is
embedded as a fold; the remaining-portfolio valuation performed inside the
zero-surplus branch writes only `future_assets` (used for a message) and does
not affect the outputs modelled here, so it is not carried in the state. -/

structure SAsset where
  id : Nat
  capital : ℚ
  monthlyValue : ℚ
  depletionYears : WithTop ℚ
  growthRate : ℚ

/-- The loop state of the surplus branch: `remaining_surplus`,
`min_depletion_years` / `earliest_depleting_asset`, and
`years_until_zero_surplus` / `zero_surplus_asset`. -/
structure WalkState where
  remaining : ℚ
  minDep : WithTop ℚ
  earliest : Option Nat
  zeroYears : WithTop ℚ
  zeroAsset : Option Nat

/-- One iteration of the `for _, asset in withdrawal_assets.iterrows()` loop:
track the earliest finite depletion, then, only while the running surplus is
still positive, subtract the asset's monthly income and record the first time
it falls to `<= 0`. -/
def walkStep (st : WalkState) (a : SAsset) : WalkState :=
  let st1 :=
    if a.depletionYears < st.minDep ∧ a.depletionYears < ⊤ then
      { st with minDep := a.depletionYears, earliest := some a.id }
    else st
  if a.depletionYears < ⊤ ∧ 0 < st1.remaining then
    let r := st1.remaining - a.monthlyValue
    if r ≤ 0 ∧ st1.zeroYears = ⊤ then
      { st1 with remaining := r, zeroYears := a.depletionYears, zeroAsset := some a.id }
    else { st1 with remaining := r }
  else st1

/-- Insert by ascending `Depletion_Years`. -/
def insertByDep (a : SAsset) : List SAsset → List SAsset
  | [] => [a]
  | b :: bs =>
    if a.depletionYears ≤ b.depletionYears then a :: b :: bs else b :: insertByDep a bs

/-- `withdrawal_assets.sort_values('Depletion_Years')`: an ascending sort by
depletion years (the order among ties is not depended on). -/
def sortByDep : List SAsset → List SAsset
  | [] => []
  | a :: as => insertByDep a (sortByDep as)

/-- The outputs of `calculate_sustainability` the analysis is stated about:
the returned years value, and the earliest-depletion and zero-surplus data
surfaced in the messages. -/
structure SustainabilityOutcome where
  yearsResult : WithTop ℚ
  minDepletionYears : WithTop ℚ
  earliestAsset : Option Nat
  zeroSurplusYears : WithTop ℚ
  zeroSurplusAsset : Option Nat

/-- `FinanceService.calculate_sustainability(assets_df, monthly_surplus)`
(lines 74-226).  Surplus branch: filter to assets with positive monthly
value, return infinity if none, otherwise walk them in ascending depletion
order; the returned years value is `min_depletion_years` (infinite when no
finite depletion exists).  Deficit branch: `total / (deficit * 12)`, reported
as infinite beyond the 100-year long-term threshold. -/
def calculate_sustainability (assets : List SAsset) (monthly_surplus : ℚ) :
    SustainabilityOutcome :=
  if 0 ≤ monthly_surplus then
    let withdrawal_assets := assets.filter (fun a => decide (0 < a.monthlyValue))
    if withdrawal_assets.isEmpty then
      { yearsResult := ⊤, minDepletionYears := ⊤, earliestAsset := none,
        zeroSurplusYears := ⊤, zeroSurplusAsset := none }
    else
      let st := (sortByDep withdrawal_assets).foldl walkStep
        { remaining := monthly_surplus, minDep := ⊤, earliest := none,
          zeroYears := ⊤, zeroAsset := none }
      { yearsResult := st.minDep, minDepletionYears := st.minDep,
        earliestAsset := st.earliest, zeroSurplusYears := st.zeroYears,
        zeroSurplusAsset := st.zeroAsset }
  else
    let monthly_deficit := -monthly_surplus
    let total_assets := (assets.map SAsset.capital).sum
    let yrs : WithTop ℚ :=
      if 0 < monthly_deficit then ((total_assets / (monthly_deficit * 12) : ℚ) : WithTop ℚ)
      else ⊤
    if ((100 : ℚ) : WithTop ℚ) < yrs then
      { yearsResult := ⊤, minDepletionYears := ⊤, earliestAsset := none,
        zeroSurplusYears := ⊤, zeroSurplusAsset := none }
    else
      { yearsResult := yrs, minDepletionYears := ⊤, earliestAsset := none,
        zeroSurplusYears := ⊤, zeroSurplusAsset := none }

/-- The single asset of the spec's sustainability scenario: capital 60000,
withdrawal 500/month, growth 0, with `Depletion_Years` as computed by
`calculate_depletion_years` in `process_data`. -/
def scenarioAsset : SAsset :=
  { id := 0, capital := 60000, monthlyValue := 500,
    depletionYears := calculate_depletion_years 60000 500 0, growthRate := 0 }

/-- A walk started with a non-positive running surplus never records a
zero-surplus event and never changes the running surplus. -/
theorem walk_no_zero_event (l : List SAsset) :
    ∀ st : WalkState, st.remaining ≤ 0 → st.zeroYears = ⊤ → st.zeroAsset = none →
      (l.foldl walkStep st).remaining ≤ 0 ∧ (l.foldl walkStep st).zeroYears = ⊤ ∧
      (l.foldl walkStep st).zeroAsset = none := by
  induction l with
  | nil => intro st h1 h2 h3; exact ⟨h1, h2, h3⟩
  | cons a l ih =>
    intro st h1 h2 h3
    simp only [List.foldl_cons]
    have hstep : (walkStep st a).remaining ≤ 0 ∧ (walkStep st a).zeroYears = ⊤ ∧
        (walkStep st a).zeroAsset = none := by
      unfold walkStep
      by_cases hmin : a.depletionYears < st.minDep ∧ a.depletionYears < ⊤
      · rw [if_pos hmin]
        rw [if_neg (by simp only [not_and, not_lt]; intro _; exact h1)]
        exact ⟨h1, h2, h3⟩
      · rw [if_neg hmin]
        rw [if_neg (by simp only [not_and, not_lt]; intro _; exact h1)]
        exact ⟨h1, h2, h3⟩
    exact ih _ hstep.1 hstep.2.1 hstep.2.2

theorem scenario_depletion : scenarioAsset.depletionYears = ((10 : ℚ) : WithTop ℚ) := by
  show calculate_depletion_years 60000 500 0 = _
  rw [depletion_years_zero_growth 60000 500 (by norm_num)]
  norm_num

theorem walkStep_scenario :
    walkStep { remaining := 0, minDep := ⊤, earliest := none, zeroYears := ⊤, zeroAsset := none }
        scenarioAsset =
      { remaining := 0, minDep := ((10 : ℚ) : WithTop ℚ), earliest := some 0,
        zeroYears := ⊤, zeroAsset := none } := by
  unfold walkStep
  simp only [scenario_depletion]
  split_ifs with h1 h2 h3 <;>
    first
      | rfl
      | (exact absurd h2.2 (by norm_num))
      | (exact absurd ⟨WithTop.coe_lt_top (10 : ℚ), WithTop.coe_lt_top (10 : ℚ)⟩ h1)

theorem scenario_outcome :
    calculate_sustainability [scenarioAsset] 0 =
      { yearsResult := ((10 : ℚ) : WithTop ℚ),
        minDepletionYears := ((10 : ℚ) : WithTop ℚ), earliestAsset := some 0,
        zeroSurplusYears := ⊤, zeroSurplusAsset := none } := by
  unfold calculate_sustainability
  rw [if_pos le_rfl]
  have hfil : List.filter (fun a => decide (0 < a.monthlyValue)) [scenarioAsset] =
      [scenarioAsset] := by
    simp only [List.filter, scenarioAsset]
    norm_num
  rw [hfil]
  simp only [List.isEmpty_cons, Bool.false_eq_true, if_false,
    show sortByDep [scenarioAsset] = [scenarioAsset] from rfl,
    List.foldl_cons, List.foldl_nil]
  rw [walkStep_scenario]

/-- C4 counterexample: in the spec scenario (one asset, capital 60000,
withdrawal 500/month, growth 0, monthly surplus exactly 0) the walk records
no zero-surplus event at all — `years_until_zero_surplus` stays infinite
rather than being 10 years. -/
theorem sustainability_zero_surplus_counterexample :
    (calculate_sustainability [scenarioAsset] 0).zeroSurplusYears = ⊤ ∧
    (⊤ : WithTop ℚ) ≠ ((10 : ℚ) : WithTop ℚ) := by
  constructor
  · rw [scenario_outcome]
  · simp

/-- C4 amended: in the scenario the analysis does report the asset as the
earliest-depleting asset at exactly 10 years (and returns 10 years), but with
a monthly surplus of exactly 0 the zero-surplus guard `remaining_surplus > 0`
is never satisfied, so no zero-surplus event is recorded for any asset list:
the event requires a strictly positive running surplus before the depletion. -/
theorem sustainability_scenario :
    (calculate_sustainability [scenarioAsset] 0).yearsResult = ((10 : ℚ) : WithTop ℚ) ∧
    (calculate_sustainability [scenarioAsset] 0).minDepletionYears = ((10 : ℚ) : WithTop ℚ) ∧
    (calculate_sustainability [scenarioAsset] 0).earliestAsset = some 0 ∧
    (calculate_sustainability [scenarioAsset] 0).zeroSurplusYears = ⊤ ∧
    (∀ assets : List SAsset,
      (calculate_sustainability assets 0).zeroSurplusYears = ⊤ ∧
      (calculate_sustainability assets 0).zeroSurplusAsset = none) := by
  refine ⟨by rw [scenario_outcome], by rw [scenario_outcome], by rw [scenario_outcome],
    by rw [scenario_outcome], ?_⟩
  intro assets
  unfold calculate_sustainability
  rw [if_pos le_rfl]
  by_cases he : (assets.filter (fun a => decide (0 < a.monthlyValue))).isEmpty
  · rw [if_pos he]
    exact ⟨rfl, rfl⟩
  · rw [if_neg he]
    have := walk_no_zero_event
      (sortByDep (assets.filter (fun a => decide (0 < a.monthlyValue))))
      { remaining := 0, minDep := ⊤, earliest := none, zeroYears := ⊤, zeroAsset := none }
      le_rfl rfl rfl
    exact ⟨this.2.1, this.2.2⟩

end FinTool
